import Mathlib

/-!
Verification of the document-analysis pipeline in `src/src-tauri/src/lib.rs`
(the single Tauri command `analyze_document`).

The Rust function is a linear pipeline over external effects: it reads the
`MISTRAL_API_KEY` environment variable, runs the `pdftotext` subprocess,
selects one of two compiled-in instruction templates, assembles a prompt,
issues one HTTP POST to the Mistral chat-completions endpoint, and parses
`choices[0].message.content` of the response as JSON.

We embed it shallowly: all external interactions are fields of a `World`
record (the environment variable as resolved after `dotenv().ok()`, the
result of `Command::output()`, the result of `send()`), and the pipeline is
a pure function from the world to a `Except String Json` result together
with the list of observable effects it performed (subprocess spawn, debug
print, HTTP POST).  The two template texts are `include_str!` files that are
not part of the source snapshot, so the pipeline is parameterised over them.
-/

namespace Maggus

/-- Model of `serde_json::Value`.  Numbers are modelled as integers only
(the pipeline never constructs or inspects numbers itself; float payloads
are outside the embedding).  Objects are association lists in insertion
order; duplicate keys are collapsed at parse time the way `serde_json`'s
map `insert` does (the last occurrence wins). -/
inductive Json where
  | null : Json
  | bool (b : Bool) : Json
  | num (n : Int) : Json
  | str (s : String) : Json
  | arr (elems : List Json) : Json
  | obj (fields : List (String × Json)) : Json
  deriving Repr

mutual

def Json.beq : Json → Json → Bool
  | .null, .null => true
  | .bool a, .bool b => a == b
  | .num a, .num b => a == b
  | .str a, .str b => a == b
  | .arr a, .arr b => Json.beqList a b
  | .obj a, .obj b => Json.beqFields a b
  | _, _ => false

def Json.beqList : List Json → List Json → Bool
  | [], [] => true
  | a :: as, b :: bs => Json.beq a b && Json.beqList as bs
  | _, _ => false

def Json.beqFields : List (String × Json) → List (String × Json) → Bool
  | [], [] => true
  | (ka, va) :: as, (kb, vb) :: bs => ka == kb && Json.beq va vb && Json.beqFields as bs
  | _, _ => false

end

instance : BEq Json := ⟨Json.beq⟩

/-- Indexing a value by a string key, as `serde_json` does: a lookup in the
object map, `Null` when the key is absent or the value is not an object. -/
def Json.getKey : Json → String → Json
  | .obj fields, k =>
    match fields.find? (fun kv => kv.1 == k) with
    | some kv => kv.2
    | none => .null
  | _, _ => .null

/-- Indexing a value by an array position, as `serde_json` does: `Null` when
out of bounds or when the value is not an array. -/
def Json.getIdx : Json → Nat → Json
  | .arr elems, i => elems.getD i .null
  | _, _ => .null

/-- The accessor `Value::as_str`: `some` exactly on JSON strings. -/
def Json.asStr : Json → Option String
  | .str s => some s
  | _ => none

/-- Whether a value is a JSON object. -/
def Json.isObj : Json → Bool
  | .obj _ => true
  | _ => false

/-! ### A JSON parser, modelling `serde_json::from_str::<Value>` -/

/-- JSON whitespace. -/
def isWs (c : Char) : Bool := c == ' ' || c == '\t' || c == '\n' || c == '\r'

def skipWs : List Char → List Char
  | [] => []
  | c :: cs => if isWs c then skipWs cs else c :: cs

def isDigitCh (c : Char) : Bool := '0' ≤ c && c ≤ '9'

def hexVal (c : Char) : Option Nat :=
  if '0' ≤ c && c ≤ '9' then some (c.toNat - 48)
  else if 'a' ≤ c && c ≤ 'f' then some (c.toNat - 97 + 10)
  else if 'A' ≤ c && c ≤ 'F' then some (c.toNat - 65 + 10)
  else none

/-- Consume the given literal characters, returning the remainder on match. -/
def matchLit : List Char → List Char → Option (List Char)
  | [], cs => some cs
  | l :: ls, c :: cs => if c == l then matchLit ls cs else none
  | _ :: _, [] => none

/-- Four hexadecimal digits of a `\u` escape. -/
def parseHex4 : List Char → Option (Nat × List Char)
  | a :: b :: c :: d :: rest =>
    match hexVal a, hexVal b, hexVal c, hexVal d with
    | some x, some y, some z, some w => some (((x * 16 + y) * 16 + z) * 16 + w, rest)
    | _, _, _, _ => none
  | _ => none

/-- Body of a JSON string literal, after the opening quote.  Handles the
standard escapes, `\u` escapes and surrogate pairs; unescaped control
characters are rejected, as `serde_json` does. -/
def parseStringBody : Nat → List Char → List Char → Except String (String × List Char)
  | 0, _, _ => .error "recursion limit exceeded"
  | fuel+1, acc, cs =>
    match cs with
    | [] => .error "EOF while parsing a string"
    | c :: rest =>
      if c == '"' then .ok (String.mk acc.reverse, rest)
      else if c == '\\' then
        match rest with
        | [] => .error "EOF while parsing a string"
        | e :: rest1 =>
          if e == '"' then parseStringBody fuel ('"' :: acc) rest1
          else if e == '\\' then parseStringBody fuel ('\\' :: acc) rest1
          else if e == '/' then parseStringBody fuel ('/' :: acc) rest1
          else if e == 'b' then parseStringBody fuel (Char.ofNat 8 :: acc) rest1
          else if e == 'f' then parseStringBody fuel (Char.ofNat 12 :: acc) rest1
          else if e == 'n' then parseStringBody fuel ('\n' :: acc) rest1
          else if e == 'r' then parseStringBody fuel ('\r' :: acc) rest1
          else if e == 't' then parseStringBody fuel ('\t' :: acc) rest1
          else if e == 'u' then
            match parseHex4 rest1 with
            | none => .error "invalid escape"
            | some (n, rest2) =>
              if 0xD800 ≤ n && n ≤ 0xDBFF then
                match rest2 with
                | '\\' :: 'u' :: rest3 =>
                  match parseHex4 rest3 with
                  | some (m, rest4) =>
                    if 0xDC00 ≤ m && m ≤ 0xDFFF then
                      parseStringBody fuel
                        (Char.ofNat (0x10000 + (n - 0xD800) * 0x400 + (m - 0xDC00)) :: acc) rest4
                    else .error "lone leading surrogate in hex escape"
                  | none => .error "invalid escape"
                | _ => .error "unexpected end of hex escape"
              else if 0xDC00 ≤ n && n ≤ 0xDFFF then .error "lone trailing surrogate"
              else parseStringBody fuel (Char.ofNat n :: acc) rest2
          else .error "invalid escape"
      else if c.toNat < 0x20 then .error "control character in string"
      else parseStringBody fuel (c :: acc) rest

/-- Leading run of decimal digits. -/
def takeDigits : List Char → List Char × List Char
  | [] => ([], [])
  | c :: cs =>
    if isDigitCh c then
      let p := takeDigits cs
      (c :: p.1, p.2)
    else ([], c :: cs)

def digitsToNat (acc : Nat) : List Char → Nat
  | [] => acc
  | c :: cs => digitsToNat (acc * 10 + (c.toNat - 48)) cs

/-- Parse a JSON number.  JSON forbids leading zeros.  `Json.num` is
integral, so fractional and exponent parts are rejected by the model (the
pipeline itself never constructs or computes with numbers). -/
def parseNumber (cs : List Char) : Except String (Json × List Char) :=
  let p : Bool × List Char :=
    match cs with
    | '-' :: rest => (true, rest)
    | _ => (false, cs)
  match takeDigits p.2 with
  | ([], _) => .error "expected value"
  | (d :: ds, rest) =>
    if d == '0' && !ds.isEmpty then .error "invalid number"
    else
      match rest with
      | '.' :: _ => .error "fractional numbers are outside this model"
      | 'e' :: _ => .error "exponents are outside this model"
      | 'E' :: _ => .error "exponents are outside this model"
      | _ =>
        let n : Int := Int.ofNat (digitsToNat 0 (d :: ds))
        .ok (Json.num (if p.1 then -n else n), rest)

/-- Insert a key/value pair in an object under construction; a duplicate key
overwrites the earlier value, as map insertion does in `serde_json`. -/
def insertField : List (String × Json) → String → Json → List (String × Json)
  | [], k, v => [(k, v)]
  | kv :: rest, k, v => if kv.1 == k then (k, v) :: rest else kv :: insertField rest k v

mutual

/-- Recursive-descent JSON value parser (fuel-indexed; the entry point
`Json.parse` supplies ample fuel). -/
def parseVal : Nat → List Char → Except String (Json × List Char)
  | 0, _ => .error "recursion limit exceeded"
  | fuel+1, cs =>
    match skipWs cs with
    | [] => .error "EOF while parsing a value"
    | c :: rest =>
      if c == 'n' then
        match matchLit ['u', 'l', 'l'] rest with
        | some rest1 => .ok (Json.null, rest1)
        | none => .error "expected ident"
      else if c == 't' then
        match matchLit ['r', 'u', 'e'] rest with
        | some rest1 => .ok (Json.bool true, rest1)
        | none => .error "expected ident"
      else if c == 'f' then
        match matchLit ['a', 'l', 's', 'e'] rest with
        | some rest1 => .ok (Json.bool false, rest1)
        | none => .error "expected ident"
      else if c == '"' then
        match parseStringBody (rest.length + 1) [] rest with
        | .ok (s, rest1) => .ok (Json.str s, rest1)
        | .error e => .error e
      else if c == '[' then
        match skipWs rest with
        | ']' :: rest1 => .ok (Json.arr [], rest1)
        | cs1 => parseElems fuel cs1 []
      else if c == '{' then
        match skipWs rest with
        | '}' :: rest1 => .ok (Json.obj [], rest1)
        | cs1 => parseMembers fuel cs1 []
      else if c == '-' || isDigitCh c then parseNumber (c :: rest)
      else .error "expected value"

/-- Elements of a JSON array after the opening bracket (nonempty case). -/
def parseElems : Nat → List Char → List Json → Except String (Json × List Char)
  | 0, _, _ => .error "recursion limit exceeded"
  | fuel+1, cs, acc =>
    match parseVal fuel cs with
    | .error e => .error e
    | .ok (v, rest) =>
      match skipWs rest with
      | ',' :: rest1 => parseElems fuel rest1 (acc ++ [v])
      | ']' :: rest1 => .ok (Json.arr (acc ++ [v]), rest1)
      | _ => .error "expected comma or closing bracket"

/-- Members of a JSON object after the opening brace (nonempty case). -/
def parseMembers : Nat → List Char → List (String × Json) → Except String (Json × List Char)
  | 0, _, _ => .error "recursion limit exceeded"
  | fuel+1, cs, acc =>
    match skipWs cs with
    | '"' :: rest =>
      match parseStringBody (rest.length + 1) [] rest with
      | .error e => .error e
      | .ok (k, rest1) =>
        match skipWs rest1 with
        | ':' :: rest2 =>
          match parseVal fuel rest2 with
          | .error e => .error e
          | .ok (v, rest3) =>
            match skipWs rest3 with
            | ',' :: rest4 => parseMembers fuel rest4 (insertField acc k v)
            | '}' :: rest4 => .ok (Json.obj (insertField acc k v), rest4)
            | _ => .error "expected comma or closing brace"
        | _ => .error "expected colon"
    | _ => .error "key must be a string"

end

/-- Entry point, modelling `serde_json::from_str::<Value>`: parse a complete
JSON document; trailing content other than whitespace is an error. -/
def Json.parse (s : String) : Except String Json :=
  match parseVal (2 * s.length + 8) s.toList with
  | .error e => .error e
  | .ok (v, rest) =>
    match skipWs rest with
    | [] => .ok v
    | _ => .error "trailing characters"

/-! ### Lossy UTF-8 decoding, modelling `String::from_utf8_lossy`

The Rust function validates UTF-8 and substitutes U+FFFD for each maximal
invalid subpart.  It is total: it never fails, whatever the byte input. -/

/-- The Unicode replacement character U+FFFD. -/
def replChar : Char := Char.ofNat 0xFFFD

/-- A UTF-8 continuation byte. -/
def isCont (b : Nat) : Bool := 0x80 ≤ b && b ≤ 0xBF

/-- Valid second byte of a three-byte sequence headed by `b` (UTF-8 excludes
overlong encodings under 0xE0 and surrogates under 0xED). -/
def valid3Second (b b1 : Nat) : Bool :=
  if b == 0xE0 then 0xA0 ≤ b1 && b1 ≤ 0xBF
  else if b == 0xED then 0x80 ≤ b1 && b1 ≤ 0x9F
  else isCont b1

/-- Valid second byte of a four-byte sequence headed by `b` (UTF-8 excludes
overlong encodings under 0xF0 and code points beyond U+10FFFF under 0xF4). -/
def valid4Second (b b1 : Nat) : Bool :=
  if b == 0xF0 then 0x90 ≤ b1 && b1 ≤ 0xBF
  else if b == 0xF4 then 0x80 ≤ b1 && b1 ≤ 0x8F
  else isCont b1

/-- Fuel-indexed worker for lossy decoding; the fuel is at least the length
of the byte list, so it never runs out. -/
def utf8LossyAux : Nat → List Nat → List Char
  | 0, _ => []
  | _, [] => []
  | fuel+1, b :: rest =>
    if b ≤ 0x7F then Char.ofNat b :: utf8LossyAux fuel rest
    else if b < 0xC2 then replChar :: utf8LossyAux fuel rest
    else if b ≤ 0xDF then
      match rest with
      | [] => [replChar]
      | b1 :: rest1 =>
        if isCont b1 then
          Char.ofNat (((b &&& 0x1F) <<< 6) ||| (b1 &&& 0x3F)) :: utf8LossyAux fuel rest1
        else replChar :: utf8LossyAux fuel rest
    else if b ≤ 0xEF then
      match rest with
      | [] => [replChar]
      | b1 :: rest1 =>
        if valid3Second b b1 then
          match rest1 with
          | [] => [replChar]
          | b2 :: rest2 =>
            if isCont b2 then
              Char.ofNat (((b &&& 0x0F) <<< 12) ||| ((b1 &&& 0x3F) <<< 6) ||| (b2 &&& 0x3F))
                :: utf8LossyAux fuel rest2
            else replChar :: utf8LossyAux fuel rest1
        else replChar :: utf8LossyAux fuel rest
    else if b ≤ 0xF4 then
      match rest with
      | [] => [replChar]
      | b1 :: rest1 =>
        if valid4Second b b1 then
          match rest1 with
          | [] => [replChar]
          | b2 :: rest2 =>
            if isCont b2 then
              match rest2 with
              | [] => [replChar]
              | b3 :: rest3 =>
                if isCont b3 then
                  Char.ofNat (((b &&& 0x07) <<< 18) ||| ((b1 &&& 0x3F) <<< 12) |||
                      ((b2 &&& 0x3F) <<< 6) ||| (b3 &&& 0x3F))
                    :: utf8LossyAux fuel rest3
                else replChar :: utf8LossyAux fuel rest2
            else replChar :: utf8LossyAux fuel rest1
        else replChar :: utf8LossyAux fuel rest
    else replChar :: utf8LossyAux fuel rest

/-- Lossy decoding, `String::from_utf8_lossy`, as a total function on byte
lists. -/
def utf8Lossy (bs : List Nat) : String := String.mk (utf8LossyAux bs.length bs)

/-! ### The pipeline world and `analyze_document` -/

/-- The two instruction templates.  In the source they are `include_str!`
files (`PromptAuftrag.txt`, `PromptRechnung.txt`) compiled into the binary;
the files are not part of the snapshot, so the pipeline is parameterised
over their text. -/
structure Templates where
  auftrag : String
  rechnung : String

/-- Which of the two templates is selected. -/
inductive TemplateChoice where
  | auftrag : TemplateChoice
  | rechnung : TemplateChoice
  deriving Repr, DecidableEq

/-- The template selection of `analyze_document`:
`if doc_type == "rechnung" { PROMPT_RECHNUNG } else { PROMPT_AUFTRAG }`. -/
def selectTemplate (doc_type : String) : TemplateChoice :=
  if doc_type == "rechnung" then .rechnung else .auftrag

/-- The selected template text. -/
def basePrompt (t : Templates) (doc_type : String) : String :=
  match selectTemplate doc_type with
  | .rechnung => t.rechnung
  | .auftrag => t.auftrag

/-- Result of `Command::output()` on success: exit status and captured
stdout/stderr byte streams. -/
structure CmdOutput where
  statusSuccess : Bool
  stdout : List Nat
  stderr : List Nat

/-- An HTTP response as the pipeline observes it: the status code, the
reason phrase its `Display` rendering appends after the code, and the body
text that `res.json()` would decode. -/
structure HttpResponse where
  status : Nat
  statusReason : String
  body : String

/-- The external world of one invocation: the environment variable as
resolved after `dotenv().ok()`, the result of running `pdftotext`
(`Except.error` when the subprocess cannot be started, carrying the
rendered io error), and the result of `send()` (`Except.error` carrying the
rendered transport error). -/
structure World where
  mistralApiKey : Option String
  pdftotext : Except String CmdOutput
  send : Except String HttpResponse

/-- Observable effects of one invocation, in order. -/
inductive Effect where
  | spawnPdftotext (args : List String) : Effect
  | printDebug (s : String) : Effect
  | httpPost (url : String) (authHeader : String) (body : Json) : Effect

/-- Success statuses (2xx), as `reqwest::StatusCode` classifies them. -/
def statusIsSuccess (n : Nat) : Bool := 200 ≤ n && n ≤ 299

/-- The `Display` rendering of a status code: the decimal code followed by
the reason phrase. -/
def statusDisplay (code : Nat) (reason : String) : String :=
  toString code ++ " " ++ reason

/-- The fixed endpoint. -/
def mistralUrl : String := "https://api.mistral.ai/v1/chat/completions"

/-- The fixed argument list passed to `pdftotext`. -/
def pdftotextArgs (path : String) : List String :=
  ["-layout", "-enc", "UTF-8", path, "-"]

/-- The JSON request body built by `analyze_document`. -/
def requestBody (full_prompt : String) : Json :=
  .obj [("model", .str "mistral-large-latest"),
        ("messages", .arr [.obj [("role", .str "user"), ("content", .str full_prompt)]]),
        ("response_format", .obj [("type", .str "json_object")])]

/-- The assembled prompt:
`format!("{}\n\nDokument Inhalt:\n{}", base_prompt, extracted_text)`. -/
def fullPrompt (t : Templates) (doc_type extracted_text : String) : String :=
  basePrompt t doc_type ++ "\n\nDokument Inhalt:\n" ++ extracted_text

/-- The navigation `json_res["choices"][0]["message"]["content"]`. -/
def contentField (json_res : Json) : Json :=
  (((json_res.getKey "choices").getIdx 0).getKey "message").getKey "content"

/-- Unwrapping of the HTTP exchange: transport errors, non-success status,
body decoding (`res.json()`), content extraction and result parsing.
The response is a world input, so this stage is a function of the world. -/
def responseResult (w : World) : Except String Json :=
  match w.send with
  | .error e => .error e
  | .ok res =>
    if !statusIsSuccess res.status then
      .error ("API Fehler: " ++ statusDisplay res.status res.statusReason)
    else
      match Json.parse res.body with
      | .error e => .error e
      | .ok json_res =>
        match Json.asStr (contentField json_res) with
        | none => .error "Kein Inhalt in der Antwort"
        | some content_str =>
          match Json.parse content_str with
          | .error e => .error ("JSON Parse Fehler: " ++ e)
          | .ok result_obj => .ok result_obj

/-- Effects of the stage after extraction: the debug print of the extracted
text, then the POST carrying the bearer header and the request body. -/
def stageEffects (t : Templates) (api_key doc_type extracted_text : String) : List Effect :=
  [.printDebug ("--- DEBUG TEXT START ---\n" ++ extracted_text ++ "\n--- DEBUG TEXT END ---"),
   .httpPost mistralUrl ("Bearer " ++ api_key) (requestBody (fullPrompt t doc_type extracted_text))]

/-- The pipeline from the point where `extracted_text` is in hand: the debug
print, template selection, prompt assembly, the POST, response validation,
content extraction and result parsing.  Returns the result together with
the effects of this stage. -/
def afterExtract (t : Templates) (w : World) (api_key doc_type extracted_text : String) :
    Except String Json × List Effect :=
  (responseResult w, stageEffects t api_key doc_type extracted_text)

/-- The command `analyze_document(path, doc_type)`, as a pure function of
the world.  Returns the `Result<Value, String>` and the list of observable
effects, in order. -/
def analyzeDocument (t : Templates) (w : World) (path doc_type : String) :
    Except String Json × List Effect :=
  match w.mistralApiKey with
  | none => (.error "API Key fehlt", [])
  | some api_key =>
    match w.pdftotext with
    | .error e =>
      (.error ("Konnte pdftotext nicht ausführen: " ++ e), [.spawnPdftotext (pdftotextArgs path)])
    | .ok output =>
      if !output.statusSuccess then
        (.error ("Fehler beim Lesen der PDF (pdftotext): " ++ utf8Lossy output.stderr),
         [.spawnPdftotext (pdftotextArgs path)])
      else
        let extracted_text := utf8Lossy output.stdout
        let tail := afterExtract t w api_key doc_type extracted_text
        (tail.1, .spawnPdftotext (pdftotextArgs path) :: tail.2)

/-! ### Concrete fixtures used by the witness theorems -/

/-- A pair of template texts. -/
def tmplW : Templates := ⟨"AUFTRAG-TEMPLATE", "RECHNUNG-TEMPLATE"⟩

/-- Successful `pdftotext` output: stdout is the ASCII bytes of "Hi". -/
def outOk : CmdOutput := ⟨true, [72, 105], []⟩

/-- Failed `pdftotext` output: nonzero exit, stderr the ASCII bytes of
"boom". -/
def outFail : CmdOutput := ⟨false, [], [98, 111, 111, 109]⟩

/-- Successful output whose stdout bytes are not valid UTF-8. -/
def outBad : CmdOutput := ⟨true, [0xFF, 65], []⟩

/-- A success-response body whose content field holds the JSON object
string of a total of 42. -/
def envBody : String :=
  "\x7b\"choices\":[\x7b\"message\":\x7b\"content\":\"\x7b\\\"total\\\": 42\x7d\"\x7d\x7d]\x7d"

/-- The parsed form of `envBody`. -/
def envVal : Json :=
  .obj [("choices", .arr [.obj [("message",
      .obj [("content", .str "\x7b\"total\": 42\x7d")])]])]

/-- A world in which every stage succeeds. -/
def wGood : World := ⟨some "KEY", .ok outOk, .ok ⟨200, "OK", envBody⟩⟩

/-- A world with no API key in the environment. -/
def wNoKey : World := ⟨none, .error "", .error ""⟩

/-- A world in which the extraction subprocess exits nonzero. -/
def wFail : World := ⟨some "KEY", .ok outFail, .error ""⟩

/-- A world in which stdout is malformed UTF-8. -/
def wBadStdout : World := ⟨some "KEY", .ok outBad, .ok ⟨200, "OK", envBody⟩⟩

/-- A world in which the API answers 404. -/
def wApi404 : World := ⟨some "KEY", .ok outOk, .ok ⟨404, "Not Found", envBody⟩⟩

/-- A world in which the content field is not valid JSON. -/
def wBadContent : World :=
  ⟨some "KEY", .ok outOk,
   .ok ⟨200, "OK", "\x7b\"choices\":[\x7b\"message\":\x7b\"content\":\"not json\"\x7d\x7d]\x7d"⟩⟩

/-- A world in which the envelope decodes but has no choices at all. -/
def wNoChoices : World := ⟨some "KEY", .ok outOk, .ok ⟨200, "OK", "\x7b\x7d"⟩⟩

/-- A world in which the content field holds the bare number "42". -/
def wNumContent : World :=
  ⟨some "KEY", .ok outOk,
   .ok ⟨200, "OK", "\x7b\"choices\":[\x7b\"message\":\x7b\"content\":\"42\"\x7d\x7d]\x7d"⟩⟩

/-! ### The claims -/

/-- C1: `analyze_document` selects the invoice template exactly when the
document type is the string "rechnung" (exact, case-sensitive match); every
other string, the empty string included, selects the default order
template.  No other tag is recognized. -/
theorem selectTemplate_invoice_iff (d : String) :
    (selectTemplate d = TemplateChoice.rechnung ↔ d = "rechnung") ∧
    (selectTemplate d = TemplateChoice.auftrag ↔ d ≠ "rechnung") := by
  by_cases h : d = "rechnung" <;> simp [selectTemplate, h]

/-- C2: whenever the pipeline reaches the HTTP call, the posted prompt is
exactly the selected template, the literal separator
"\n\nDokument Inhalt:\n", and the extracted text, in that order, with
nothing added or removed and no length limit. -/
theorem analyzeDocument_prompt_exact (t : Templates) (w : World) (path d k : String)
    (out : CmdOutput) (hk : w.mistralApiKey = some k) (hp : w.pdftotext = .ok out)
    (hs : out.statusSuccess = true) :
    Effect.httpPost mistralUrl ("Bearer " ++ k)
        (requestBody (basePrompt t d ++ "\n\nDokument Inhalt:\n" ++ utf8Lossy out.stdout))
      ∈ (analyzeDocument t w path d).2 := by
  simp [analyzeDocument, hk, hp, hs, afterExtract, stageEffects, fullPrompt]

/-- Witness for C2 at a concrete world. -/
theorem analyzeDocument_prompt_exact_witness :
    Effect.httpPost mistralUrl ("Bearer " ++ "KEY")
        (requestBody (basePrompt tmplW "rechnung" ++ "\n\nDokument Inhalt:\n"
          ++ utf8Lossy outOk.stdout))
      ∈ (analyzeDocument tmplW wGood "f.pdf" "rechnung").2 :=
  analyzeDocument_prompt_exact tmplW wGood "f.pdf" "rechnung" "KEY" outOk rfl rfl rfl

/-- C3: with `MISTRAL_API_KEY` unset (after the dotenv load), the pipeline
returns the missing-credential configuration error "API Key fehlt" with an
empty effect trace: the extraction subprocess is never spawned and no HTTP
request is made. -/
theorem analyzeDocument_missing_key (t : Templates) (w : World) (path d : String)
    (h : w.mistralApiKey = none) :
    analyzeDocument t w path d = (.error "API Key fehlt", []) := by
  simp [analyzeDocument, h]

/-- Witness for C3 at a concrete world. -/
theorem analyzeDocument_missing_key_witness :
    analyzeDocument tmplW wNoKey "f.pdf" "rechnung" = (.error "API Key fehlt", []) :=
  analyzeDocument_missing_key tmplW wNoKey "f.pdf" "rechnung" rfl

/-- C4: when `pdftotext` exits with nonzero status, the pipeline returns an
error whose message carries the subprocess's stderr text, the only effect is
the spawn itself, and in particular no HTTP POST appears in the trace. -/
theorem analyzeDocument_extraction_error (t : Templates) (w : World) (path d k : String)
    (out : CmdOutput) (hk : w.mistralApiKey = some k) (hp : w.pdftotext = .ok out)
    (hs : out.statusSuccess = false) :
    analyzeDocument t w path d =
      (.error ("Fehler beim Lesen der PDF (pdftotext): " ++ utf8Lossy out.stderr),
       [.spawnPdftotext (pdftotextArgs path)]) ∧
    ∀ u a b, Effect.httpPost u a b ∉ (analyzeDocument t w path d).2 := by
  refine ⟨by simp [analyzeDocument, hk, hp, hs], ?_⟩
  intro u a b
  simp [analyzeDocument, hk, hp, hs]

/-- Witness for C4 at a concrete world. -/
theorem analyzeDocument_extraction_error_witness :
    analyzeDocument tmplW wFail "f.pdf" "rechnung" =
      (.error ("Fehler beim Lesen der PDF (pdftotext): " ++ utf8Lossy outFail.stderr),
       [.spawnPdftotext (pdftotextArgs "f.pdf")]) ∧
    ∀ u a b, Effect.httpPost u a b ∉ (analyzeDocument tmplW wFail "f.pdf" "rechnung").2 :=
  analyzeDocument_extraction_error tmplW wFail "f.pdf" "rechnung" "KEY" outFail rfl rfl rfl

/-- C5: a non-success HTTP status makes the pipeline fail with the
`API Fehler` message carrying the decimal status code, and the response body
plays no role: the result is the same whatever body the response carries, so
none of the body-parsing errors can arise. -/
theorem analyzeDocument_api_error (t : Templates) (w : World) (path d k : String)
    (out : CmdOutput) (res : HttpResponse)
    (hk : w.mistralApiKey = some k) (hp : w.pdftotext = .ok out)
    (hs : out.statusSuccess = true) (hsend : w.send = .ok res)
    (hbad : statusIsSuccess res.status = false) :
    (analyzeDocument t w path d).1 =
      .error ("API Fehler: " ++ statusDisplay res.status res.statusReason) ∧
    (∃ pre suf, "API Fehler: " ++ statusDisplay res.status res.statusReason =
      pre ++ toString res.status ++ suf) ∧
    (∀ b : String,
      (analyzeDocument t { w with send := .ok { res with body := b } } path d).1 =
        .error ("API Fehler: " ++ statusDisplay res.status res.statusReason)) := by
  refine ⟨by simp [analyzeDocument, hk, hp, hs, afterExtract, responseResult, hsend, hbad],
    ⟨"API Fehler: ", " " ++ res.statusReason, by
      simp [statusDisplay, String.append_assoc]⟩, ?_⟩
  intro b
  simp [analyzeDocument, hk, hp, hs, afterExtract, responseResult, hsend, hbad]

/-- Witness for C5 at a concrete world where the API answers 404. -/
theorem analyzeDocument_api_error_witness :
    (analyzeDocument tmplW wApi404 "f.pdf" "rechnung").1 =
      .error ("API Fehler: " ++ statusDisplay 404 "Not Found") ∧
    (∃ pre suf, "API Fehler: " ++ statusDisplay 404 "Not Found" =
      pre ++ toString 404 ++ suf) ∧
    (∀ b : String,
      (analyzeDocument tmplW { wApi404 with send := .ok ⟨404, "Not Found", b⟩ } "f.pdf"
          "rechnung").1 =
        .error ("API Fehler: " ++ statusDisplay 404 "Not Found")) :=
  analyzeDocument_api_error tmplW wApi404 "f.pdf" "rechnung" "KEY" outOk ⟨404, "Not Found", envBody⟩
    rfl rfl rfl rfl rfl

/-- C6: round-trip — when the call succeeds and the content field holds any
string that parses as a JSON object, the pipeline succeeds and returns
exactly the value that string encodes, unchanged. -/
theorem analyzeDocument_roundtrip (t : Templates) (w : World) (path d k s : String)
    (out : CmdOutput) (res : HttpResponse) (env v : Json)
    (hk : w.mistralApiKey = some k) (hp : w.pdftotext = .ok out)
    (hs : out.statusSuccess = true) (hsend : w.send = .ok res)
    (hok : statusIsSuccess res.status = true)
    (henv : Json.parse res.body = .ok env)
    (hcontent : Json.asStr (contentField env) = some s)
    (hv : Json.parse s = .ok v) (_hobj : v.isObj = true) :
    (analyzeDocument t w path d).1 = .ok v := by
  simp [analyzeDocument, hk, hp, hs, afterExtract, responseResult, hsend, hok, henv,
    hcontent, hv]

/-- Witness for C6: the content string of a total of 42 yields exactly the
object with the single field total = 42. -/
theorem analyzeDocument_roundtrip_witness :
    (analyzeDocument tmplW wGood "f.pdf" "auftrag").1 =
      .ok (Json.obj [("total", Json.num 42)]) :=
  analyzeDocument_roundtrip tmplW wGood "f.pdf" "auftrag" "KEY" "\x7b\"total\": 42\x7d"
    outOk ⟨200, "OK", envBody⟩ envVal (Json.obj [("total", Json.num 42)])
    rfl rfl rfl rfl rfl rfl rfl rfl rfl

/-- C7: when the content field holds a string that is not valid JSON, the
pipeline fails with the parse-error message carrying the underlying parser
diagnostic. -/
theorem analyzeDocument_content_parse_error (t : Templates) (w : World) (path d k s e : String)
    (out : CmdOutput) (res : HttpResponse) (env : Json)
    (hk : w.mistralApiKey = some k) (hp : w.pdftotext = .ok out)
    (hs : out.statusSuccess = true) (hsend : w.send = .ok res)
    (hok : statusIsSuccess res.status = true)
    (henv : Json.parse res.body = .ok env)
    (hcontent : Json.asStr (contentField env) = some s)
    (hv : Json.parse s = .error e) :
    (analyzeDocument t w path d).1 = .error ("JSON Parse Fehler: " ++ e) ∧
    ∃ pre, "JSON Parse Fehler: " ++ e = pre ++ e := by
  refine ⟨?_, "JSON Parse Fehler: ", rfl⟩
  simp [analyzeDocument, hk, hp, hs, afterExtract, responseResult, hsend, hok, henv,
    hcontent, hv]

/-- Witness for C7 at the content string "not json". -/
theorem analyzeDocument_content_parse_error_witness :
    (analyzeDocument tmplW wBadContent "f.pdf" "rechnung").1 =
      .error ("JSON Parse Fehler: " ++ "expected ident") ∧
    ∃ pre, "JSON Parse Fehler: " ++ "expected ident" = pre ++ "expected ident" :=
  analyzeDocument_content_parse_error tmplW wBadContent "f.pdf" "rechnung" "KEY"
    "not json" "expected ident" outOk ⟨200, "OK", wBadContent.send.toOption.get rfl |>.body⟩
    (Json.obj [("choices", Json.arr [Json.obj [("message",
      Json.obj [("content", Json.str "not json")])]])])
    rfl rfl rfl rfl rfl rfl rfl rfl

/-- C8: once the response envelope decodes, an absent first-choice message
content field — the choices list missing or empty, the message missing, or
the content present but not a JSON string — makes the pipeline fail with the
missing-content error. -/
theorem analyzeDocument_missing_content (t : Templates) (w : World) (path d k : String)
    (out : CmdOutput) (res : HttpResponse) (env : Json)
    (hk : w.mistralApiKey = some k) (hp : w.pdftotext = .ok out)
    (hs : out.statusSuccess = true) (hsend : w.send = .ok res)
    (hok : statusIsSuccess res.status = true)
    (henv : Json.parse res.body = .ok env)
    (hmiss : Json.asStr (contentField env) = none) :
    (analyzeDocument t w path d).1 = .error "Kein Inhalt in der Antwort" := by
  simp [analyzeDocument, hk, hp, hs, afterExtract, responseResult, hsend, hok, henv, hmiss]

/-- Witness for C8 at an envelope with no choices at all. -/
theorem analyzeDocument_missing_content_witness :
    (analyzeDocument tmplW wNoChoices "f.pdf" "rechnung").1 =
      .error "Kein Inhalt in der Antwort" :=
  analyzeDocument_missing_content tmplW wNoChoices "f.pdf" "rechnung" "KEY" outOk
    ⟨200, "OK", "\x7b\x7d"⟩ (Json.obj []) rfl rfl rfl rfl rfl rfl rfl

/-- C9: the extracted text is the lossy UTF-8 decode of the subprocess's
stdout bytes — a total function, so for every byte sequence, valid UTF-8 or
not, the pipeline proceeds past decoding (the result is the response stage
applied to the decoded text, never a decoding failure); an invalid sequence
is replaced by U+FFFD rather than rejected. -/
theorem analyzeDocument_lossy_decode (t : Templates) (w : World) (path d k : String)
    (out : CmdOutput) (hk : w.mistralApiKey = some k) (hp : w.pdftotext = .ok out)
    (hs : out.statusSuccess = true) :
    analyzeDocument t w path d =
      (responseResult w,
       .spawnPdftotext (pdftotextArgs path) :: stageEffects t k d (utf8Lossy out.stdout)) ∧
    utf8Lossy [0xC3, 0x28] = String.mk [replChar, '('] := by
  refine ⟨by simp [analyzeDocument, hk, hp, hs, afterExtract], by decide⟩

/-- Witness for C9 at a world whose stdout bytes are malformed UTF-8. -/
theorem analyzeDocument_lossy_decode_witness :
    analyzeDocument tmplW wBadStdout "f.pdf" "rechnung" =
      (responseResult wBadStdout,
       .spawnPdftotext (pdftotextArgs "f.pdf")
         :: stageEffects tmplW "KEY" "rechnung" (utf8Lossy outBad.stdout)) ∧
    utf8Lossy [0xC3, 0x28] = String.mk [replChar, '('] :=
  analyzeDocument_lossy_decode tmplW wBadStdout "f.pdf" "rechnung" "KEY" outBad rfl rfl rfl

/-- C10: result parsing accepts any JSON value, not only objects — a content
string encoding a bare number, array, string or null makes the pipeline
succeed with that non-object value. -/
theorem analyzeDocument_nonobject_result (t : Templates) (w : World) (path d k s : String)
    (out : CmdOutput) (res : HttpResponse) (env v : Json)
    (hk : w.mistralApiKey = some k) (hp : w.pdftotext = .ok out)
    (hs : out.statusSuccess = true) (hsend : w.send = .ok res)
    (hok : statusIsSuccess res.status = true)
    (henv : Json.parse res.body = .ok env)
    (hcontent : Json.asStr (contentField env) = some s)
    (hv : Json.parse s = .ok v) (_hobj : v.isObj = false) :
    (analyzeDocument t w path d).1 = .ok v := by
  simp [analyzeDocument, hk, hp, hs, afterExtract, responseResult, hsend, hok, henv,
    hcontent, hv]

/-- Witness for C10: the content string "42" yields the bare number 42. -/
theorem analyzeDocument_nonobject_result_witness :
    (analyzeDocument tmplW wNumContent "f.pdf" "rechnung").1 = .ok (Json.num 42) :=
  analyzeDocument_nonobject_result tmplW wNumContent "f.pdf" "rechnung" "KEY" "42"
    outOk ⟨200, "OK", wNumContent.send.toOption.get rfl |>.body⟩
    (Json.obj [("choices", Json.arr [Json.obj [("message",
      Json.obj [("content", Json.str "42")])]])])
    (Json.num 42) rfl rfl rfl rfl rfl rfl rfl rfl rfl

end Maggus
